import Mathlib

/-!
Verification development for the electrolyzer control optimizer of this repository.

The JavaScript sources are embedded shallowly over the exact rationals.  JS
numbers are IEEE doubles; every arithmetic operation appearing in the embedded
code (+, -, *, /, min, max, abs, floor, round, comparisons) is modelled by the
corresponding exact operation on the rationals, with the usual caveat that a JS
division by zero yields Infinity or NaN while a rational division by zero
yields 0, and that JS undefined propagates as NaN.  Each definition cites the
source function it translates.  Ambient calls to Math.random() are modelled by
threading an explicit random stream: each call consumes one value of the
stream, in the exact evaluation order of the JS code.
-/


/-- Explicit random stream: the values of the stream together with the position
of the next draw.  Each Math.random() call in the JS code draws one value. -/
structure Rng where
  f : ℕ → ℚ
  idx : ℕ

/-- Draw one random value and advance the stream. -/
def Rng.draw (r : Rng) : ℚ × Rng := (r.f r.idx, ⟨r.f, r.idx + 1⟩)

/-- Candidate Solution of the evolutionary optimizer.
Source: src/henmpc-controller.js lines 78-95 (the solution object literal). -/
structure Solution where
  id : ℕ
  currentSetpoint : ℚ
  gridRatio : ℚ
  pvRatio : ℚ
  productionRate : ℚ
  responseAggressiveness : ℚ
  riskTolerance : ℚ
  optimizationFocus : ℕ
  fitness : ℚ
  constraintsViolated : ℕ
  generation : ℕ

/-- Fallback element for out-of-range array access.  At the fixed population
size 50 with in-range random draws no access is out of range, so this value is
unreachable in code-faithful states; it is chosen inside the operating ranges. -/
instance : Inhabited Solution :=
  ⟨{ id := 0, currentSetpoint := 100, gridRatio := 1/2, pvRatio := 1/2,
     productionRate := 0, responseAggressiveness := 3/4, riskTolerance := 1/2,
     optimizationFocus := 0, fitness := 0, constraintsViolated := 0, generation := 0 }⟩

/-- Scenario: the snapshot of the external Kenya context read by one
generation step (kenyaData.getCurrentData()).  The context provider itself is
an external collaborator, so the snapshot is a parameter of the embedding.
Fields: hospital.demand, energy.tariff.rate, energy.solar, energy.grid.reliability. -/
structure Scenario where
  demand : ℚ
  tariff : ℚ
  solar : ℚ
  gridReliability : ℚ

/-- Weight vector of the multi-objective fitness.
Source: src/henmpc-controller.js lines 13-19. -/
structure Weights where
  economic : ℚ
  reliability : ℚ
  efficiency : ℚ
  sustainability : ℚ
  safety : ℚ

/-- Constructor weights, src/henmpc-controller.js lines 13-19. -/
def initialWeights : Weights :=
  { economic := 0.35, reliability := 0.25, efficiency := 0.20,
    sustainability := 0.15, safety := 0.05 }

/-- Strategy presets recognised by updateWeights (closed set; an unknown
strategy string leaves the weights unchanged and is not modelled).
Source: src/henmpc-controller.js lines 407-417. -/
inductive StrategyName where
  | economic
  | reliability
  | efficiency

/-- Source: src/henmpc-controller.js lines 407-417 (updateWeights presets). -/
def updateWeights : StrategyName → Weights
  | StrategyName.economic =>
    { economic := 0.5, reliability := 0.2, efficiency := 0.15, sustainability := 0.1, safety := 0.05 }
  | StrategyName.reliability =>
    { economic := 0.2, reliability := 0.5, efficiency := 0.15, sustainability := 0.1, safety := 0.05 }
  | StrategyName.efficiency =>
    { economic := 0.25, reliability := 0.15, efficiency := 0.4, sustainability := 0.15, safety := 0.05 }

/-- One Performance Record entry pushed per generation.  The wall-clock fields
(timestamp, computationTime) are external and omitted.
Source: src/henmpc-controller.js lines 126-133. -/
structure PerfRecord where
  generation : ℕ
  bestFitness : ℚ
  averageFitness : ℚ
  strategy : StrategyName

/-- Mutable per-instance state of the HENMPC class.
Source: src/henmpc-controller.js lines 2-26 (constructor fields that the
optimizer reads and writes; populationSize is the constant 50). -/
structure HState where
  weights : Weights
  population : List Solution
  bestSolution : Option Solution
  generation : ℕ
  performanceHistory : List PerfRecord

namespace HENMPC

/-- Population size constant, src/henmpc-controller.js line 4. -/
def populationSize : ℕ := 50

/-- Source: src/henmpc-controller.js lines 203-217 (calculateProductionCost). -/
def calculateProductionCost (s : Solution) (tariff : ℚ) : ℚ :=
  let powerRequired := s.currentSetpoint * 1.8
  let gridPower := powerRequired * s.gridRatio
  let pvPower := powerRequired * s.pvRatio
  let gridCost := (gridPower / 1000) * tariff
  let pvCost := (pvPower / 1000) * 2.0
  let operationalCost := s.productionRate * 0.17
  gridCost + pvCost + operationalCost

/-- Source: src/henmpc-controller.js lines 183-201 (calculateEconomicFitness).
The solar argument of the JS function is unused by its body. -/
def calculateEconomicFitness (s : Solution) (demand tariff : ℚ) : ℚ :=
  let production := s.productionRate
  let delivered := min production demand
  let oxygenRevenue := delivered * 150
  let hydrogenRevenue := (s.currentSetpoint * 0.00042 * 3600) * 40
  let productionCost := calculateProductionCost s tariff
  let netProfit := oxygenRevenue + hydrogenRevenue - productionCost
  netProfit / 1000

/-- Source: src/henmpc-controller.js lines 219-238 (calculateReliabilityFitness).
The this.bestSolution null check of line 233 is the Option match. -/
def calculateReliabilityFitness (s : Solution) (gridReliability demand : ℚ)
    (bestOpt : Option Solution) : ℚ :=
  let r1 : ℚ := if s.gridRatio > 0.8 ∧ gridReliability < 0.9 then 1.0 * 0.7 else 1.0
  let demandSatisfaction := min 1.0 (s.productionRate / demand)
  let r2 := r1 * demandSatisfaction
  match bestOpt with
  | some b => if |s.currentSetpoint - b.currentSetpoint| > 20 then r2 * 0.8 else r2
  | none => r2

/-- Source: src/henmpc-controller.js lines 240-253 (calculateEfficiencyFitness). -/
def calculateEfficiencyFitness (s : Solution) (solarPower : ℚ) : ℚ :=
  let solarUtilization := min 1.0 ((s.pvRatio * s.currentSetpoint * 1.8) / (solarPower * 1000))
  let e1 := 1.0 * solarUtilization
  let currentEfficiency := 1.0 - |s.currentSetpoint - 100| / 100
  e1 * currentEfficiency

/-- Source: src/henmpc-controller.js lines 255-268 (calculateSustainabilityFitness).
The solarPower argument of the JS function is unused by its body. -/
def calculateSustainabilityFitness (s : Solution) : ℚ :=
  let gridPower := s.currentSetpoint * 1.8 * s.gridRatio / 1000
  let pvPower := s.currentSetpoint * 1.8 * s.pvRatio / 1000
  let emissions := gridPower * 0.5 + pvPower * 0.05
  let maxEmissions := s.currentSetpoint * 1.8 * 0.5 / 1000
  1.0 - emissions / maxEmissions

/-- Source: src/henmpc-controller.js lines 270-282 (calculateSafetyFitness). -/
def calculateSafetyFitness (s : Solution) : ℚ :=
  let s1 : ℚ := if s.currentSetpoint > 140 then 1.0 * 0.8 else 1.0
  let s2 := if s.currentSetpoint < 60 then s1 * 0.9 else s1
  if s.gridRatio > 0.9 ∨ s.pvRatio > 0.9 then s2 * 0.85 else s2

/-- Source: src/henmpc-controller.js lines 284-300 (checkConstraints).  The
demand argument of the JS function is unused by its body. -/
def checkConstraints (s : Solution) : ℕ :=
  (if s.currentSetpoint < 50 ∨ s.currentSetpoint > 150 then 1 else 0) +
  (if s.gridRatio < 0 ∨ s.gridRatio > 1 then 1 else 0) +
  (if s.pvRatio < 0 ∨ s.pvRatio > 1 then 1 else 0) +
  (if |s.gridRatio + s.pvRatio - 1| > 0.01 then 1 else 0) +
  (if s.productionRate < 0 then 1 else 0)

/-- One solution pass of evaluateFitness: assigns productionRate, fitness and
constraintsViolated.  Source: src/henmpc-controller.js lines 147-180. -/
def evaluateSolution (w : Weights) (scen : Scenario) (bestOpt : Option Solution)
    (s : Solution) : Solution :=
  let s0 := { s with productionRate := s.currentSetpoint * 0.00021 * 3600 }
  let economicFitness := calculateEconomicFitness s0 scen.demand scen.tariff
  let reliabilityFitness := calculateReliabilityFitness s0 scen.gridReliability scen.demand bestOpt
  let efficiencyFitness := calculateEfficiencyFitness s0 scen.solar
  let sustainabilityFitness := calculateSustainabilityFitness s0
  let safetyFitness := calculateSafetyFitness s0
  let constraints := checkConstraints s0
  { s0 with
    fitness := economicFitness * w.economic + reliabilityFitness * w.reliability +
      efficiencyFitness * w.efficiency + sustainabilityFitness * w.sustainability +
      safetyFitness * w.safety - (constraints : ℚ) * 10,
    constraintsViolated := constraints }

/-- Source: src/henmpc-controller.js lines 140-181 (evaluateFitness over the
whole population). -/
def evaluateFitness (w : Weights) (scen : Scenario) (bestOpt : Option Solution)
    (pop : List Solution) : List Solution :=
  pop.map (evaluateSolution w scen bestOpt)

/-- One solution of initializePopulation; consumes six random draws in the
evaluation order of the object literal.  Note that pvRatio is drawn
independently of gridRatio.  Source: src/henmpc-controller.js lines 78-95. -/
def initSolution (i : ℕ) (r : Rng) : Solution × Rng :=
  let d1 := r.draw
  let d2 := d1.2.draw
  let d3 := d2.2.draw
  let d4 := d3.2.draw
  let d5 := d4.2.draw
  let d6 := d5.2.draw
  ({ id := i,
     currentSetpoint := 80 + d1.1 * 70,
     gridRatio := d2.1,
     pvRatio := 1 - d3.1,
     productionRate := 0,
     responseAggressiveness := 0.5 + d4.1 * 0.5,
     riskTolerance := 0.3 + d5.1 * 0.4,
     optimizationFocus := (d6.1 * 3).floor.toNat,
     fitness := 0,
     constraintsViolated := 0,
     generation := 0 }, d6.2)

/-- Loop of initializePopulation, building solutions i, i+1, ... -/
def initLoop : ℕ → ℕ → Rng → List Solution × Rng
  | 0, _, r => ([], r)
  | n + 1, i, r =>
    let p := initSolution i r
    let rest := initLoop n (i + 1) p.2
    (p.1 :: rest.1, rest.2)

/-- Source: src/henmpc-controller.js lines 73-101 (initializePopulation). -/
def initializePopulation (r : Rng) : List Solution × Rng :=
  initLoop populationSize 0 r

/-- One tournament of size 5: five random indices into the population (the
index is drawn against the constant populationSize 50), keeping the candidate
with strictly greater fitness.  Source: src/henmpc-controller.js lines 312-320. -/
def tournamentRound : ℕ → Option Solution → List Solution → Rng → Solution × Rng
  | 0, acc, _, r => (acc.getD default, r)
  | n + 1, acc, pop, r =>
    let d := r.draw
    let candidate := pop.getD ((d.1 * 50).floor.toNat) default
    let acc2 := match acc with
      | none => some candidate
      | some b => if candidate.fitness > b.fitness then some candidate else some b
    tournamentRound n acc2 pop d.2

/-- Fills the remaining population slots by tournament selection. -/
def tournamentFill : ℕ → List Solution → List Solution → Rng → List Solution × Rng
  | 0, acc, _, r => (acc, r)
  | n + 1, acc, pop, r =>
    let w := tournamentRound 5 none pop r
    tournamentFill n (acc ++ [w.1]) pop w.2

/-- Selection with elitism: the current best solution is copied into slot 0
unconditionally, then 49 tournament winners fill the rest.
Source: src/henmpc-controller.js lines 302-326. -/
def selection (best : Solution) (pop : List Solution) (r : Rng) : List Solution × Rng :=
  let rest := tournamentFill (populationSize - 1) [] pop r
  (best :: rest.1, rest.2)

/-- One crossover pair at odd index i, partner i+1 (wrapping to 0 past the
end, the JS population[i+1] || population[0]).  With probability 0.8 one of
three single-point swaps is applied; the ratio swap re-establishes
pvRatio = 1 - gridRatio for both parents.
Source: src/henmpc-controller.js lines 330-357. -/
def crossPair (pop : List Solution) (i : ℕ) (r : Rng) : List Solution × Rng :=
  let g := r.draw
  if g.1 < 0.8 then
    let c := g.2.draw
    let point : ℤ := (c.1 * 3).floor
    let j := if i + 1 < pop.length then i + 1 else 0
    let a := pop.getD i default
    let b := pop.getD j default
    if point = 0 then
      ((pop.set i { a with currentSetpoint := b.currentSetpoint }).set j
        { b with currentSetpoint := a.currentSetpoint }, c.2)
    else if point = 1 then
      ((pop.set i { a with gridRatio := b.gridRatio, pvRatio := 1 - b.gridRatio }).set j
        { b with gridRatio := a.gridRatio, pvRatio := 1 - a.gridRatio }, c.2)
    else if point = 2 then
      ((pop.set i { a with responseAggressiveness := b.responseAggressiveness }).set j
        { b with responseAggressiveness := a.responseAggressiveness }, c.2)
    else (pop, c.2)
  else (pop, g.2)

/-- Source: src/henmpc-controller.js lines 328-359 (crossover): the loop
for (i = 1; i < population.length; i += 2). -/
def crossover (pop : List Solution) (r : Rng) : List Solution × Rng :=
  ((List.range pop.length).filter (fun i => i % 2 = 1)).foldl
    (fun pr i => crossPair pr.1 i pr.2) (pop, r)

/-- Setpoint mutation: fires with probability 0.1, perturbs by up to 10 A and
re-clamps to the [50,150] range.  Source: src/henmpc-controller.js lines 366-370. -/
def mutateCurrent (s : Solution) (r : Rng) : Solution × Rng :=
  let g := r.draw
  if g.1 < 0.1 then
    let d := g.2.draw
    ({ s with currentSetpoint := max 50 (min 150 (s.currentSetpoint + (d.1 - 0.5) * 20)) }, d.2)
  else (s, g.2)

/-- Ratio mutation: clamps gridRatio to [0,1] and re-establishes
pvRatio = 1 - gridRatio.  Source: src/henmpc-controller.js lines 372-377. -/
def mutateRatio (s : Solution) (r : Rng) : Solution × Rng :=
  let g := r.draw
  if g.1 < 0.1 then
    let d := g.2.draw
    let gr := max 0 (min 1 (s.gridRatio + (d.1 - 0.5) * 0.2))
    ({ s with gridRatio := gr, pvRatio := 1 - gr }, d.2)
  else (s, g.2)

/-- Strategy-parameter mutation.  Source: src/henmpc-controller.js lines 379-383. -/
def mutateAggressiveness (s : Solution) (r : Rng) : Solution × Rng :=
  let g := r.draw
  if g.1 < 0.1 then
    let d := g.2.draw
    let v := max 0.5 (min 1.0 (s.responseAggressiveness + (d.1 - 0.5) * 0.1))
    ({ s with responseAggressiveness := v }, d.2)
  else (s, g.2)

/-- One solution pass of mutation, the three independent mutations in order.
Source: src/henmpc-controller.js lines 365-384. -/
def mutateOne (s : Solution) (r : Rng) : Solution × Rng :=
  let a := mutateCurrent s r
  let b := mutateRatio a.1 a.2
  mutateAggressiveness b.1 b.2

/-- Source: src/henmpc-controller.js lines 361-385 (mutation over the
population, forEach order). -/
def mutation : List Solution → Rng → List Solution × Rng
  | [], r => ([], r)
  | s :: t, r =>
    let p := mutateOne s r
    let rest := mutation t p.2
    (p.1 :: rest.1, rest.2)

/-- Source: src/henmpc-controller.js lines 387-398 (updateBestSolution):
best starts at population[0] and is replaced only on strictly greater fitness. -/
def updateBestSolution (pop : List Solution) : Solution :=
  pop.foldl (fun best s => if s.fitness > best.fitness then s else best) (pop.headD default)

/-- Source: src/henmpc-controller.js lines 400-404 (getAverageFitness). -/
def getAverageFitness (pop : List Solution) : ℚ :=
  (pop.foldl (fun sum s => sum + s.fitness) 0) / (pop.length : ℚ)

/-- The crossover-then-mutation variation phase of one generation step.
Source: src/henmpc-controller.js lines 119-120 (the two successive calls). -/
def variationPhase (pop : List Solution) (r : Rng) : List Solution × Rng :=
  let c := crossover pop r
  mutation c.1 c.2

/-- The population produced by one generation step: evaluate fitness against
the scenario, selection with elitism, then the variation phase. -/
def nextPopulation (scen : Scenario) (strat : StrategyName) (b : Solution)
    (st : HState) (r : Rng) : List Solution × Rng :=
  let pop1 := evaluateFitness (updateWeights strat) scen (some b) st.population
  let pr2 := selection b pop1 r
  variationPhase pr2.1 pr2.2

/-- The body of one generation step once a current best solution exists:
update weights from the strategy, evaluate fitness of the population against
the scenario, selection, crossover, mutation, capture the new best and append
a Performance Record (with no eviction).  The unused currentState argument of
the JS optimize is dropped: its body only reads the Kenya snapshot.
Source: src/henmpc-controller.js lines 103-138. -/
def optimizeCore (scen : Scenario) (strat : StrategyName) (b : Solution)
    (st : HState) (r : Rng) : HState × Rng :=
  let pr4 := nextPopulation scen strat b st r
  let nb := updateBestSolution pr4.1
  ({ weights := updateWeights strat,
     population := pr4.1,
     bestSolution := some nb,
     generation := st.generation + 1,
     performanceHistory := st.performanceHistory ++
       [{ generation := st.generation + 1, bestFitness := nb.fitness,
          averageFitness := getAverageFitness pr4.1, strategy := strat }] }, pr4.2)

/-- One optimize call.  When bestSolution is null (the constructor state), the
JS selection spreads the null best into an empty object whose undefined fitness
then poisons the run, and the call itself ends in a TypeError at
`this.bestSolution.fitness.toFixed(2)` (line 135); this faulting path is
modelled as none.  Source: src/henmpc-controller.js lines 103-138. -/
def optimize (scen : Scenario) (strat : StrategyName) (st : HState) (r : Rng) :
    Option (HState × Rng) :=
  match st.bestSolution with
  | none => none
  | some b => some (optimizeCore scen strat b st r)

/-- Source: src/henmpc-controller.js lines 440-467 (explainDecision). -/
def explainDecision (s : Solution) (scen : Scenario) : List String :=
  let l1 := if scen.tariff > 25 ∧ s.pvRatio > 0.6 then
    ["High electricity tariffs - maximizing solar utilization"] else []
  let l2 := if scen.demand > 120 ∧ s.currentSetpoint > 130 then
    ["High hospital demand - increased production"] else []
  let l3 := if s.gridRatio < 0.3 ∧ scen.gridReliability < 0.9 then
    ["Grid instability - minimizing grid dependency"] else []
  let l4 := if scen.solar > 2 ∧ s.pvRatio > 0.7 then
    ["Good solar conditions - prioritizing renewable energy"] else []
  let reasons := l1 ++ l2 ++ l3 ++ l4
  if reasons.isEmpty then ["Optimal economic operation maintained"] else reasons

/-- Source: src/henmpc-controller.js lines 469-489 (calculateConfidence):
base 0.7, a +0.2 stability bonus from the last five Performance Records, a
-0.1 penalty per constraint violation, clamped into [0.3, 0.95]. -/
def calculateConfidence (hist : List PerfRecord) (s : Solution) : ℚ :=
  let c0 : ℚ := 0.7
  let c1 := if 5 < hist.length then
      let recentImprovement := hist.drop (hist.length - 5)
      let avgImprovement :=
        (recentImprovement.foldl (fun sum p => sum + p.bestFitness) 0) / 5
      if avgImprovement > s.fitness * 0.95 then c0 + 0.2 else c0
    else c0
  let c2 := if 0 < s.constraintsViolated then c1 - 0.1 * (s.constraintsViolated : ℚ) else c1
  max 0.3 (min 0.95 c2)

/-- JS Math.round: round half toward positive infinity. -/
def jsRound (q : ℚ) : ℤ := (q + 1/2).floor

/-- Decision record published outward.  The timestamp is external wall clock
and omitted.  Source: src/henmpc-controller.js lines 424-434. -/
structure Decision where
  optimalCurrent : ℤ
  gridRatio : ℚ
  pvRatio : ℚ
  expectedProduction : ℚ
  fitness : ℚ
  generation : ℕ
  reasoning : List String
  confidence : ℚ

/-- Packaging of the decision object literal of generateControlDecision.
Source: src/henmpc-controller.js lines 424-434. -/
def mkDecision (scen : Scenario) (hist : List PerfRecord) (gen : ℕ) (s : Solution) : Decision :=
  { optimalCurrent := jsRound s.currentSetpoint,
    gridRatio := s.gridRatio,
    pvRatio := s.pvRatio,
    expectedProduction := s.productionRate,
    fitness := s.fitness,
    generation := gen,
    reasoning := explainDecision s scen,
    confidence := calculateConfidence hist s }

/-- Source: src/henmpc-controller.js lines 419-438 (generateControlDecision):
one optimize step with the economic strategy, then the decision is packaged
from the returned best solution and the post-step history and generation.
Both the optimize call and the decision read the same context snapshot. -/
def generateControlDecision (scen : Scenario) (st : HState) (r : Rng) :
    Option (Decision × HState × Rng) :=
  match optimize scen StrategyName.economic st r with
  | none => none
  | some (st2, r2) =>
    match st2.bestSolution with
    | none => none
    | some nb => some (mkDecision scen st2.performanceHistory st2.generation nb, st2, r2)

end HENMPC

/-- JS truthy-or indexing x[i] || d: undefined (out of range) and 0 are falsy
and give the default.  Used for the || defaults in evalCost. -/
def jsOrGet (l : List ℚ) (i : ℕ) (d : ℚ) : ℚ :=
  match l.get? i with
  | none => d
  | some w => if w = 0 then d else w

/-- JS Math.round(x*10)/10, the one-decimal rounding of the published current. -/
def jsRound10 (q : ℚ) : ℚ := (((q * 10 + 1/2).floor : ℤ) : ℚ) / 10

namespace MPC

/-- Warm decision handed to the lower-layer MPC: the grid_ratio and
optimal_current pair.  Source: src/unnamed/part_001 line 70 and
src/mpc-controller.js line 645. -/
structure WarmDecision where
  grid_ratio : ℚ
  optimal_current : ℚ

/-- Refined decision returned by runWithWarmStart.
Source: src/mpc-controller.js line 661. -/
structure RefineDecision where
  grid_ratio : ℚ
  optimal_current : ℚ
  cost : ℚ

/-- Cost of a control point x = (grid_ratio, current) for a state vector.
The surrogate model is an external TensorFlow model abstracted as an optional
function from the model input row to the predicted output row.  With no
surrogate the fallback physics cost is used (energy cost plus low-water
penalty; an out-of-range state[1] compares as false in JS and gives no
penalty).  With a surrogate, the y[i] || default reads are jsOrGet.
The y[1] efficiency read of the JS code is dead (never used in the returned
expression) and is not bound.  Source: src/mpc-controller.js lines 670-705. -/
def evalCost (surrogateModel : Option (List ℚ → List ℚ)) (x : ℚ × ℚ) (state : List ℚ) : ℚ :=
  let grid_ratio := x.1
  let current := x.2
  let pv_ratio := 1 - grid_ratio
  match surrogateModel with
  | none =>
    let energyCost := current * 1.8 * (grid_ratio * 0.15 + pv_ratio * 0.05) / 1000.0
    let waterPenalty : ℚ :=
      match state.get? 1 with
      | some w => if w < 10 then 1000 else 0
      | none => 0
    energyCost + waterPenalty
  | some f =>
    let modelInput := [current, grid_ratio, pv_ratio,
      jsOrGet state 1 100, jsOrGet state 4 0.15, jsOrGet state 5 0.5]
    let y := f modelInput
    let o2_rate := jsOrGet y 0 0.0
    let purity := jsOrGet y 2 99.5
    let energyCost := current * 1.8 * (grid_ratio * 0.15 + pv_ratio * 0.05) / 1000.0
    let revenue := o2_rate * 3600 * 0.02
    let purityPenalty := if purity < 99.5 then (99.5 - purity) ^ 2 * 1000 else 0
    let smoothPenalty := |current - state.getD 0 0| * 0.01
    energyCost - revenue + purityPenalty + smoothPenalty

/-- One hill-climb iteration: perturb the incumbent by bounded noise on each
dimension, clamp to [0,1] x [50,200], evaluate, accept only on strictly
smaller cost.  Source: src/mpc-controller.js lines 649-658. -/
def hillStep (surrogateModel : Option (List ℚ → List ℚ)) (state : List ℚ)
    (p : (ℚ × ℚ) × ℚ × Rng) : (ℚ × ℚ) × ℚ × Rng :=
  let d1 := p.2.2.draw
  let d2 := d1.2.draw
  let cand := (min 1 (max 0 (p.1.1 + (d1.1 - 0.5) * 0.1)),
               min 200 (max 50 (p.1.2 + (d2.1 - 0.5) * 8.0)))
  let cost := evalCost surrogateModel cand state
  if cost < p.2.1 then (cand, cost, d2.2) else (p.1, p.2.1, d2.2)

/-- The 120-iteration hill-climb loop. -/
def hillIter (surrogateModel : Option (List ℚ → List ℚ)) (state : List ℚ) :
    ℕ → (ℚ × ℚ) × ℚ × Rng → (ℚ × ℚ) × ℚ × Rng
  | 0, p => p
  | n + 1, p => hillIter surrogateModel state n (hillStep surrogateModel state p)

/-- Source: src/mpc-controller.js lines 640-668 (runWithWarmStart): random
perturbation hill-climb for 120 iterations from the warm decision, then the
final decision with the one-decimal rounded current and the achieved cost.
The mqtt publishing side effects are external and not modelled. -/
def runWithWarmStart (surrogateModel : Option (List ℚ → List ℚ)) (state : List ℚ)
    (warmDecision : WarmDecision) (r : Rng) : RefineDecision × Rng :=
  let x0 := (warmDecision.grid_ratio, warmDecision.optimal_current)
  let c0 := evalCost surrogateModel x0 state
  let best := hillIter surrogateModel state 120 (x0, c0, r)
  ({ grid_ratio := best.1.1, optimal_current := jsRound10 best.1.2, cost := best.2.1 }, best.2.2)

end MPC

namespace MPCController

/-- Test scenario of the comparator: reference 100 and constraints 50..150
are fixed, the conditions come from the external context snapshot.
Source: src/mpc-controller.js lines 366-383 (generateTestScenario). -/
structure TestScenario where
  currentState : ℚ
  reference : ℚ
  constraintsMin : ℚ
  constraintsMax : ℚ
  tariff : ℚ
  solar : ℚ
  grid : ℚ
  demand : ℚ

/-- Source: src/mpc-controller.js lines 366-383: the scenario built from the
current context data (demand doubles as the current state). -/
def generateTestScenario (demand tariff solar grid : ℚ) : TestScenario :=
  { currentState := demand, reference := 100, constraintsMin := 50, constraintsMax := 150,
    tariff := tariff, solar := solar, grid := grid, demand := demand }

/-- Result record of one variant; optional fields model JS undefined for the
fields only some variants produce. -/
structure ControlResult where
  control : Option ℚ
  optimalCurrent : Option ℚ
  cost : ℚ
  gridRatio : Option ℚ
  pvRatio : Option ℚ
  robustness : Option ℚ

/-- JS truthiness of an optional number: undefined and 0 are falsy. -/
def jsTruthy (o : Option ℚ) : Bool :=
  match o with
  | none => false
  | some q => if q = 0 then false else true

/-- The controlResult.control || controlResult.optimalCurrent read used by all
scoring functions (an undefined pair reads as NaN in JS; modelled 0). -/
def controlValue (cr : ControlResult) : ℚ :=
  if jsTruthy cr.control then cr.control.getD 0 else cr.optimalCurrent.getD 0

/-- Source: src/mpc-controller.js lines 443-450 (calculateTrackingPerformance):
the control current is converted to a production rate in L/h and the absolute
error against scenario.reference is normalized by the maximum error 50. -/
def calculateTrackingPerformance (cr : ControlResult) (scen : TestScenario) : ℚ :=
  let production := controlValue cr * 0.00021 * 3600
  let error := |production - scen.reference|
  let maxError : ℚ := 50
  max 0 (1 - error / maxError)

/-- Runtime faults of the comparator loop. -/
inductive JsFault where
  | referenceError
  | typeError

/-- Ranking entry produced for one variant (the fields read downstream). -/
structure PerfEntry where
  variant : String
  control : ℚ
  overallScore : ℚ

/-- A registered strategy variant: a name and its fallible compute capability
(generateControlDecision for henmpc, computeControl for the others). -/
structure Variant where
  name : String
  compute : TestScenario → Except JsFault ControlResult

/-- One iteration of the compareVariants loop, src/mpc-controller.js lines
316-343.  Its first executable statement is
`const startTime = performance.now();` (line 317), but line 332 declares
`const performance = this.evaluateVariantPerformance(...)` in the same block,
so the line 317 read falls in the temporal dead zone of that lexical binding
and raises a ReferenceError before any variant code runs.  The per-variant
try/catch swallows the fault, so every iteration contributes nothing. -/
def compareVariantsIteration (v : Variant) (scen : TestScenario) : Except JsFault PerfEntry :=
  Except.error JsFault.referenceError

/-- Descending insertion by overallScore, modelling the
results.sort((a, b) => b.overallScore - a.overallScore) of line 347. -/
def insertByScore (x : PerfEntry) : List PerfEntry → List PerfEntry
  | [] => [x]
  | y :: t => if y.overallScore < x.overallScore then x :: y :: t else y :: insertByScore x t

/-- Descending sort by overallScore. -/
def sortByScore : List PerfEntry → List PerfEntry
  | [] => []
  | x :: t => insertByScore x (sortByScore t)

/-- Source: src/mpc-controller.js lines 307-364 (compareVariants): each variant
is run in its own try/catch (errors excluded from the results), the results are
sorted descending, and the summary record then reads results[0].variant
(line 353); on an empty results array that read throws a TypeError and the call
rejects with no ranking. -/
def compareVariants (variants : List Variant) (scen : TestScenario) :
    Except JsFault (List PerfEntry) :=
  let results := variants.foldl (fun acc v =>
    match compareVariantsIteration v scen with
    | Except.ok p => acc ++ [p]
    | Except.error _ => acc) ([] : List PerfEntry)
  let sorted := sortByScore results
  match sorted with
  | [] => Except.error JsFault.typeError
  | _ :: _ => Except.ok sorted

/-- Source: src/mpc-controller.js lines 350-360: push the comparison record,
then evict the oldest entry once the history exceeds 100 entries. -/
def pushPerformanceMetric {α : Type} (history : List α) (entry : α) : List α :=
  let h2 := history ++ [entry]
  if 100 < h2.length then h2.tail else h2

end MPCController

namespace WarmNet

/-- First-layer weights, src/unnamed/part_001 lines 24-28. -/
def W1 : List (List ℚ) :=
  [[0.004, -0.01, 0.6, -0.2, -1.5, 0.01],
   [0.01, 0.0, -0.4, 0.8, -0.5, -0.02],
   [0.002, -0.005, 0.1, 0.05, -0.2, 0.01]]

/-- First-layer bias, src/unnamed/part_001 line 29. -/
def b1 : List ℚ := [0.1, 0.2, 0.05]

/-- Second-layer weights, src/unnamed/part_001 lines 30-33. -/
def W2 : List (List ℚ) :=
  [[1.2, -0.6, 0.1],
   [80.0, -10.0, 5.0]]

/-- Second-layer bias, src/unnamed/part_001 line 34. -/
def b2 : List ℚ := [0.0, 120.0]

/-- Source: src/unnamed/part_001 lines 8-16 (matVecMul): row-by-row dot
product over the input length (lengths agree for the fixed weight shapes). -/
def matVecMul (W : List (List ℚ)) (x : List ℚ) : List ℚ :=
  W.map (fun row => (row.zip x).foldl (fun s p => s + p.1 * p.2) 0)

/-- Source: src/unnamed/part_001 line 17 (addBias, with the b[i] || 0 read):
entry i of the result is v[i] + (b[i] || 0), written as an index walk. -/
def addBias : List ℚ → List ℚ → List ℚ
  | [], _ => []
  | v :: vs, b => (v + b.headD 0) :: addBias vs b.tail

/-- Source: src/unnamed/part_001 line 18 (relu). -/
def relu (v : List ℚ) : List ℚ := v.map (fun x => max 0 x)

/-- The unclamped output row of the warm-start network: fixed normalization,
then two affine stages with a relu between them.
Source: src/unnamed/part_001 lines 37-50. -/
def predictRaw (input : List ℚ) : List ℚ :=
  let inNorm := [input.getD 0 0 / 200.0, input.getD 1 0 / 100.0, input.getD 2 0,
    input.getD 3 0, input.getD 4 0 / 0.5, input.getD 5 0 / 100.0]
  let h1 := relu (addBias (matVecMul W1 inNorm) b1)
  addBias (matVecMul W2 h1) b2

/-- Source: src/unnamed/part_001 lines 36-55 (WarmNet.predict): the raw
network output postprocessed by the final clamps, grid into [0,1] and
current into [50,200]. -/
def predict (input : List ℚ) : ℚ × ℚ :=
  (min 1 (max 0 ((predictRaw input).getD 0 0)),
   min 200 (max 50 ((predictRaw input).getD 1 0)))

end WarmNet

namespace HenMPC

/-- Source: src/unnamed/part_001 lines 84-124 (the warmModel-backed HenMPC):
with no warm model loaded the documented heuristic fallback decision
grid_ratio 0.5, optimal_current 150 is returned; with a model, the model
output row is clamped into the same bounds.  The mqtt publication and the
fire-and-forget refinement call are external side effects and not modelled. -/
def computeAndPublishMPC (warmModel : Option (List ℚ → List ℚ)) (state : List ℚ) :
    MPC.WarmDecision :=
  match warmModel with
  | none => { grid_ratio := 0.5, optimal_current := 150.0 }
  | some m =>
    let out := m state
    { grid_ratio := min 1 (max 0 (out.getD 0 0)),
      optimal_current := min 200 (max 50 (out.getD 1 0)) }

end HenMPC

/-- Invariant claimed for candidate solutions: both the clamped ranges and the
ratio identity pvRatio = 1 - gridRatio. -/
def SolutionInv (s : Solution) : Prop :=
  0 ≤ s.gridRatio ∧ s.gridRatio ≤ 1 ∧ s.pvRatio = 1 - s.gridRatio ∧
  50 ≤ s.currentSetpoint ∧ s.currentSetpoint ≤ 150

instance (s : Solution) : Decidable (SolutionInv s) :=
  inferInstanceAs (Decidable (0 ≤ s.gridRatio ∧ s.gridRatio ≤ 1 ∧
    s.pvRatio = 1 - s.gridRatio ∧ 50 ≤ s.currentSetpoint ∧ s.currentSetpoint ≤ 150))

/-- Invariant carried through the hill-climb loop of runWithWarmStart:
the incumbent control point stays inside the clamped box. -/
def HillInv (p : (ℚ × ℚ) × ℚ × Rng) : Prop :=
  0 ≤ p.1.1 ∧ p.1.1 ≤ 1 ∧ 50 ≤ p.1.2 ∧ p.1.2 ≤ 200

/-- Constant random stream used by witnesses. -/
def rngHalf : Rng := ⟨fun _ => 1/2, 0⟩

/-- Random stream for initializePopulation whose second draw differs from the
rest, so the first solution draws its pvRatio independently of its gridRatio. -/
def rngInit : Rng := ⟨fun n => if n = 1 then 3/10 else 9/10, 0⟩

/-- Random stream for one generation step: the 245 selection draws pick
population index 0 in every tournament, then the crossover and mutation
guards (values 9/10) never fire. -/
def rngGen : Rng := ⟨fun n => if n < 245 then 1/100 else 9/10, 0⟩

/-- A well-formed context snapshot. -/
def scen0 : Scenario := { demand := 100, tariff := 20, solar := 3, gridReliability := 0.95 }

/-- A malformed context snapshot with negative demand. -/
def badScen : Scenario := { demand := -5, tariff := 20, solar := 3, gridReliability := 0.95 }

/-- The population built by the embedded initializePopulation from rngInit. -/
def popInit : List Solution := (HENMPC.initializePopulation rngInit).1

/-- An optimizer state holding that population with a current best solution. -/
def stInit : HState :=
  { weights := initialWeights, population := popInit, bestSolution := some default,
    generation := 1, performanceHistory := [] }

/-- A small optimizer state with a current best solution. -/
def stSmall : HState :=
  { weights := initialWeights, population := [], bestSolution := some default,
    generation := 0, performanceHistory := [] }

/-- Iterated generation steps from stSmall under a fixed scenario and stream
(the bestSolution produced by each step is fed to the next; the getD default
is never taken since every step stores some best). -/
def optimizeIter : ℕ → HState × Rng
  | 0 => (stSmall, rngHalf)
  | n + 1 =>
    let p := optimizeIter n
    HENMPC.optimizeCore scen0 StrategyName.economic (p.1.bestSolution.getD default) p.1 p.2

/-- The comparator scenario of the claimed test property: demand 100, hence
reference 100 and constraints 50..150. -/
def testScenario0 : MPCController.TestScenario := MPCController.generateTestScenario 100 20 3 0.95

/-- A variant result that always outputs control 100 at cost 0. -/
def perfectTracker : MPCController.ControlResult :=
  { control := some 100, optimalCurrent := none, cost := 0,
    gridRatio := none, pvRatio := none, robustness := none }

/-- An ordinary non-throwing variant result. -/
def okVariantResult : MPCController.ControlResult :=
  { control := some 80, optimalCurrent := none, cost := 120,
    gridRatio := none, pvRatio := none, robustness := none }

/-- The henmpc variant: its generateControlDecision throws (see the optimize
model), so its compute capability errors. -/
def henmpcVariant : MPCController.Variant :=
  { name := "henmpc", compute := fun _ => Except.error MPCController.JsFault.typeError }

/-- The four simple feedback-law variants, each computing without error. -/
def linearVariant : MPCController.Variant :=
  { name := "linear", compute := fun _ => Except.ok okVariantResult }

/-- See linearVariant. -/
def nonlinearVariant : MPCController.Variant :=
  { name := "nonlinear", compute := fun _ => Except.ok okVariantResult }

/-- See linearVariant. -/
def adaptiveVariant : MPCController.Variant :=
  { name := "adaptive", compute := fun _ => Except.ok okVariantResult }

/-- See linearVariant. -/
def robustVariant : MPCController.Variant :=
  { name := "robust", compute := fun _ => Except.ok okVariantResult }

/-- The warm-start guess used by the refinement witnesses. -/
def warmGuess : MPC.WarmDecision := { grid_ratio := 1/2, optimal_current := 100 }

/-- The state vector of the documented warm-start example. -/
def stateVec0 : List ℚ := [100, 50, 0.5, 0.5, 0.15, 60]

lemma clamp1_lower (a b z : ℚ) (hab : a ≤ b) : a ≤ min b (max a z) :=
  le_min hab (le_max_left a z)

lemma clamp1_upper (a b z : ℚ) : min b (max a z) ≤ b := min_le_left b _

lemma clamp2_lower (a b z : ℚ) : a ≤ max a (min b z) := le_max_left a _

lemma clamp2_upper (a b z : ℚ) (hab : a ≤ b) : max a (min b z) ≤ b :=
  max_le hab (min_le_left b z)

/-- Claim C9: calculateConfidence always returns a value in the range
[0.3, 0.95], and the confidence field of the packaged control Decision,
which is exactly that value, therefore lies strictly between 0 and 1. -/
theorem henmpc_confidence_bounded (scen : Scenario) (hist : List PerfRecord)
    (gen : ℕ) (s : Solution) :
    ((0.3 : ℚ) ≤ HENMPC.calculateConfidence hist s ∧
      HENMPC.calculateConfidence hist s ≤ 0.95) ∧
    (0 < (HENMPC.mkDecision scen hist gen s).confidence ∧
      (HENMPC.mkDecision scen hist gen s).confidence < 1) := by
  have hlow : (0.3 : ℚ) ≤ HENMPC.calculateConfidence hist s := by
    unfold HENMPC.calculateConfidence
    exact le_max_left _ _
  have hhigh : HENMPC.calculateConfidence hist s ≤ 0.95 := by
    unfold HENMPC.calculateConfidence
    exact max_le (by norm_num) (min_le_left _ _)
  have hconf : (HENMPC.mkDecision scen hist gen s).confidence
      = HENMPC.calculateConfidence hist s := rfl
  refine ⟨⟨hlow, hhigh⟩, ?_, ?_⟩
  · rw [hconf]; exact lt_of_lt_of_le (by norm_num) hlow
  · rw [hconf]; exact lt_of_le_of_lt hhigh (by norm_num)

/-- Claim C6: the Warm-Start Predictor clamps every output into
gridRatioGuess in [0,1] and currentGuess in [50,200]; the model-backed
computeAndPublishMPC clamps into the same box for every model output, and
with no backing model it returns the heuristic fallback decision
grid_ratio 0.5, optimal_current 150 (which respects those bounds) instead of
failing. -/
theorem warm_start_predictor_bounds :
    (∀ input : List ℚ, 0 ≤ (WarmNet.predict input).1 ∧ (WarmNet.predict input).1 ≤ 1 ∧
      50 ≤ (WarmNet.predict input).2 ∧ (WarmNet.predict input).2 ≤ 200) ∧
    (∀ (warmModel : Option (List ℚ → List ℚ)) (state : List ℚ),
      0 ≤ (HenMPC.computeAndPublishMPC warmModel state).grid_ratio ∧
      (HenMPC.computeAndPublishMPC warmModel state).grid_ratio ≤ 1 ∧
      50 ≤ (HenMPC.computeAndPublishMPC warmModel state).optimal_current ∧
      (HenMPC.computeAndPublishMPC warmModel state).optimal_current ≤ 200) ∧
    (∀ state : List ℚ, HenMPC.computeAndPublishMPC none state =
      { grid_ratio := 0.5, optimal_current := 150.0 }) := by
  refine ⟨fun input => ?_, fun warmModel state => ?_, fun state => rfl⟩
  · exact ⟨clamp1_lower 0 1 _ (by norm_num), clamp1_upper 0 1 _,
      clamp1_lower 50 200 _ (by norm_num), clamp1_upper 50 200 _⟩
  · cases warmModel with
    | none =>
      refine ⟨?_, ?_, ?_, ?_⟩ <;> norm_num [HenMPC.computeAndPublishMPC]
    | some m =>
      exact ⟨clamp1_lower 0 1 _ (by norm_num), clamp1_upper 0 1 _,
        clamp1_lower 50 200 _ (by norm_num), clamp1_upper 50 200 _⟩

lemma hillStep_cost_le (sur : Option (List ℚ → List ℚ)) (state : List ℚ)
    (p : (ℚ × ℚ) × ℚ × Rng) : (MPC.hillStep sur state p).2.1 ≤ p.2.1 := by
  unfold MPC.hillStep
  dsimp only
  split
  · next hlt => exact le_of_lt hlt
  · exact le_refl _

lemma hillIter_cost_le (sur : Option (List ℚ → List ℚ)) (state : List ℚ) :
    ∀ (n : ℕ) (p : (ℚ × ℚ) × ℚ × Rng), (MPC.hillIter sur state n p).2.1 ≤ p.2.1
  | 0, _ => le_refl _
  | n + 1, p =>
    le_trans (hillIter_cost_le sur state n (MPC.hillStep sur state p))
      (hillStep_cost_le sur state p)

/-- Claim C3: for every surrogate configuration, state vector, warm-start
guess and random stream, the decision returned by runWithWarmStart has cost
at most the cost of the guess itself under the same evalCost function: the
greedy hill-climb only ever accepts a strictly better candidate. -/
theorem mpc_refine_never_worsens (sur : Option (List ℚ → List ℚ)) (state : List ℚ)
    (warmDecision : MPC.WarmDecision) (r : Rng) :
    (MPC.runWithWarmStart sur state warmDecision r).1.cost ≤
      MPC.evalCost sur (warmDecision.grid_ratio, warmDecision.optimal_current) state := by
  unfold MPC.runWithWarmStart
  exact hillIter_cost_le sur state 120 _

section ConcreteEvaluation

attribute [local semireducible] Rat.mul Rat.add Rat.sub Rat.inv Rat.ofScientific

/-- Counterexample to claim C7: in the comparator scenario with demand 100,
reference 100 and constraints 50..150, the variant that always outputs
control 100 at cost 0 scores trackingPerformance strictly below 0.9, hence
not approximately 1. -/
theorem tracking_performance_not_near_one :
    MPCController.calculateTrackingPerformance perfectTracker testScenario0 < 9/10 := by
  decide

/-- Claim C7 as amended: that variant scores exactly 0.512 = 64/125, because
the code converts the control current 100 A into a production rate
75.6 L/h and measures the tracking error 24.4 against the reference 100
treated as a production target: max(0, 1 - 24.4/50) = 0.512. -/
theorem tracking_performance_at_control_100 :
    MPCController.calculateTrackingPerformance perfectTracker testScenario0 = 64/125 := by
  decide

end ConcreteEvaluation

/-- Claim C4 (code bug): one compareVariants run over the five registered
variants, of which exactly one (henmpc) throws, produces no ranking at all:
every loop iteration faults on the temporal-dead-zone read of performance
(line 317 versus the const performance of line 332), the per-variant catch
swallows each fault, results stays empty, and the results[0].variant read of
line 353 then throws a TypeError out of the call. -/
theorem compare_variants_comparison_aborts :
    MPCController.compareVariants
      [henmpcVariant, linearVariant, nonlinearVariant, adaptiveVariant, robustVariant]
      testScenario0 = Except.error MPCController.JsFault.typeError := rfl

lemma ratFloor_eq_intFloor (q : ℚ) : q.floor = ⌊q⌋ := by
  rw [Rat.floor_def', Rat.floor_def]

lemma jsRound10_bounds (q : ℚ) (h1 : 50 ≤ q) (h2 : q ≤ 200) :
    50 ≤ jsRound10 q ∧ jsRound10 q ≤ 200 := by
  unfold jsRound10
  rw [ratFloor_eq_intFloor]
  constructor
  · have h500 : (500 : ℤ) ≤ ⌊q * 10 + 1/2⌋ := Int.le_floor.mpr (by push_cast; linarith)
    have hc : (500 : ℚ) ≤ (⌊q * 10 + 1/2⌋ : ℚ) := by exact_mod_cast h500
    linarith
  · have h2001 : ⌊q * 10 + 1/2⌋ < (2001 : ℤ) := Int.floor_lt.mpr (by push_cast; linarith)
    have hc : (⌊q * 10 + 1/2⌋ : ℚ) ≤ 2000 := by exact_mod_cast Int.lt_add_one_iff.mp h2001
    linarith

lemma hillStep_inv (sur : Option (List ℚ → List ℚ)) (state : List ℚ)
    (p : (ℚ × ℚ) × ℚ × Rng) (h : HillInv p) : HillInv (MPC.hillStep sur state p) := by
  unfold MPC.hillStep
  dsimp only
  split
  · exact ⟨clamp1_lower 0 1 _ (by norm_num), clamp1_upper 0 1 _,
      clamp1_lower 50 200 _ (by norm_num), clamp1_upper 50 200 _⟩
  · exact h

lemma hillIter_inv (sur : Option (List ℚ → List ℚ)) (state : List ℚ) :
    ∀ (n : ℕ) (p : (ℚ × ℚ) × ℚ × Rng), HillInv p → HillInv (MPC.hillIter sur state n p)
  | 0, _, h => h
  | n + 1, p, h => hillIter_inv sur state n _ (hillStep_inv sur state p h)

/-- Claim C10: for every state vector and every warm-start guess whose
grid_ratio lies in [0,1] and whose optimal_current lies in [50,200], the
decision returned by runWithWarmStart stays inside those bounds: every
perturbed candidate is clamped before evaluation, so the retained incumbent
is either the in-bounds guess or a clamped candidate, and the one-decimal
rounding of a current in [50,200] stays in [50,200]. -/
theorem mpc_refine_preserves_bounds (sur : Option (List ℚ → List ℚ)) (state : List ℚ)
    (warmDecision : MPC.WarmDecision) (r : Rng)
    (h1 : 0 ≤ warmDecision.grid_ratio) (h2 : warmDecision.grid_ratio ≤ 1)
    (h3 : 50 ≤ warmDecision.optimal_current) (h4 : warmDecision.optimal_current ≤ 200) :
    0 ≤ (MPC.runWithWarmStart sur state warmDecision r).1.grid_ratio ∧
    (MPC.runWithWarmStart sur state warmDecision r).1.grid_ratio ≤ 1 ∧
    50 ≤ (MPC.runWithWarmStart sur state warmDecision r).1.optimal_current ∧
    (MPC.runWithWarmStart sur state warmDecision r).1.optimal_current ≤ 200 := by
  have hinv : HillInv (MPC.hillIter sur state 120
      ((warmDecision.grid_ratio, warmDecision.optimal_current),
        MPC.evalCost sur (warmDecision.grid_ratio, warmDecision.optimal_current) state, r)) :=
    hillIter_inv sur state 120 _ ⟨h1, h2, h3, h4⟩
  obtain ⟨g1, g2, g3, g4⟩ := hinv
  have hr := jsRound10_bounds _ g3 g4
  exact ⟨g1, g2, hr.1, hr.2⟩

/-- Witness for claim C10 at the documented example state and an in-bounds
guess. -/
theorem mpc_refine_preserves_bounds_witness :
    ((0 : ℚ) ≤ warmGuess.grid_ratio ∧ warmGuess.grid_ratio ≤ 1 ∧
      (50 : ℚ) ≤ warmGuess.optimal_current ∧ warmGuess.optimal_current ≤ 200) ∧
    (0 ≤ (MPC.runWithWarmStart none stateVec0 warmGuess rngHalf).1.grid_ratio ∧
      (MPC.runWithWarmStart none stateVec0 warmGuess rngHalf).1.grid_ratio ≤ 1 ∧
      50 ≤ (MPC.runWithWarmStart none stateVec0 warmGuess rngHalf).1.optimal_current ∧
      (MPC.runWithWarmStart none stateVec0 warmGuess rngHalf).1.optimal_current ≤ 200) :=
  ⟨⟨by norm_num [warmGuess], by norm_num [warmGuess], by norm_num [warmGuess],
      by norm_num [warmGuess]⟩,
    mpc_refine_preserves_bounds none stateVec0 warmGuess rngHalf
      (by norm_num [warmGuess]) (by norm_num [warmGuess])
      (by norm_num [warmGuess]) (by norm_num [warmGuess])⟩

lemma optimizeCore_history_length (scen : Scenario) (strat : StrategyName)
    (b : Solution) (st : HState) (r : Rng) :
    (HENMPC.optimizeCore scen strat b st r).1.performanceHistory.length
      = st.performanceHistory.length + 1 := by
  unfold HENMPC.optimizeCore
  dsimp only
  rw [List.length_append]
  rfl

lemma optimizeIter_history_length (n : ℕ) :
    (optimizeIter n).1.performanceHistory.length = n := by
  induction n with
  | zero => rfl
  | succ n ih =>
    show (HENMPC.optimizeCore scen0 StrategyName.economic _ (optimizeIter n).1
      (optimizeIter n).2).1.performanceHistory.length = n + 1
    rw [optimizeCore_history_length, ih]

/-- Counterexample to claim C8: the Evolutionary Optimizer appends one
Performance Record per generation step with no eviction at all, so after 101
steps the history holds 101 entries, beyond the claimed 100-entry window. -/
theorem henmpc_history_grows_past_retention :
    (optimizeIter 101).1.performanceHistory.length = 101 ∧
    ¬ (optimizeIter 101).1.performanceHistory.length ≤ 100 := by
  refine ⟨optimizeIter_history_length 101, ?_⟩
  rw [optimizeIter_history_length]
  decide

/-- Claim C8 as amended: only the Strategy Comparator history is bounded:
its push-then-shift retention (lines 350-360 of the comparator) keeps at most
the last 100 entries, while the Evolutionary Optimizer history grows without
bound (one entry per optimize call, no eviction). -/
theorem comparator_metrics_retention_bounded {α : Type} (history : List α) (entry : α)
    (h : history.length ≤ 100) :
    (MPCController.pushPerformanceMetric history entry).length ≤ 100 := by
  unfold MPCController.pushPerformanceMetric
  dsimp only
  split
  · next hgt =>
    rw [List.length_tail, List.length_append]
    simp only [List.length_singleton]
    omega
  · next hle =>
    rw [List.length_append] at hle ⊢
    omega

/-- Witness for the comparator retention bound at a concrete history. -/
theorem comparator_metrics_retention_bounded_witness :
    ([] : List ℚ).length ≤ 100 ∧
    (MPCController.pushPerformanceMetric ([] : List ℚ) 1).length ≤ 100 :=
  ⟨by decide, comparator_metrics_retention_bounded [] 1 (by decide)⟩

/-- Claim C5 as amended: for every scenario with negative demand, a generation
step from a state with a current best solution completes without throwing and
generateControlDecision still packages a Decision; the malformed value flows
through the fitness arithmetic rather than aborting the step. -/
theorem henmpc_malformed_scenario_still_yields_decision (scen : Scenario) (st : HState)
    (r : Rng) (b : Solution) (hd : scen.demand < 0) (hb : st.bestSolution = some b) :
    ∃ d st2 r2, HENMPC.generateControlDecision scen st r = some (d, st2, r2) := by
  unfold HENMPC.generateControlDecision HENMPC.optimize
  rw [hb]
  exact ⟨_, _, _, rfl⟩

section ConcreteEvaluationB

attribute [local semireducible] Rat.mul Rat.add Rat.sub Rat.inv Rat.ofScientific

/-- Counterexample to claim C5: a fully in-range candidate evaluated against
the malformed scenario with demand -5 still records zero constraint
violations: the malformed scenario input is not treated as a constraint
violation (checkConstraints only inspects the candidate itself). -/
theorem henmpc_malformed_demand_not_counted_as_violation :
    (HENMPC.evaluateSolution (updateWeights StrategyName.economic) badScen none
      (default : Solution)).constraintsViolated = 0 := by
  decide

/-- Witness for the amended claim C5 at the malformed scenario with
demand -5 and a state holding a current best solution. -/
theorem henmpc_malformed_scenario_witness :
    badScen.demand < 0 ∧ stSmall.bestSolution = some default ∧
    (∃ d st2 r2, HENMPC.generateControlDecision badScen stSmall rngHalf = some (d, st2, r2)) :=
  ⟨by decide, rfl,
    henmpc_malformed_scenario_still_yields_decision badScen stSmall rngHalf default
      (by decide) rfl⟩

end ConcreteEvaluationB

lemma foldl_best_le (l : List Solution) (init : Solution) :
    init.fitness ≤
      (l.foldl (fun best s => if s.fitness > best.fitness then s else best) init).fitness := by
  induction l generalizing init with
  | nil => exact le_refl _
  | cons x t ih =>
    rw [List.foldl_cons]
    refine le_trans ?_ (ih _)
    by_cases h : x.fitness > init.fitness
    · rw [if_pos h]; exact le_of_lt h
    · rw [if_neg h]

lemma updateBestSolution_headD_le (pop : List Solution) :
    (pop.headD default).fitness ≤ (HENMPC.updateBestSolution pop).fitness :=
  foldl_best_le pop _

lemma getD_set_solution (l : List Solution) (i j : ℕ) (x : Solution) :
    (l.set i x).getD j default = if i = j ∧ j < l.length then x else l.getD j default := by
  induction l generalizing i j with
  | nil => simp
  | cons a t ih =>
    cases i with
    | zero =>
      cases j with
      | zero => simp
      | succ j => simp
    | succ i =>
      cases j with
      | zero => simp [List.set]
      | succ j =>
        simp only [List.set, List.getD_cons_succ, List.length_cons]
        rw [ih]
        have hiff : (i = j ∧ j < t.length) ↔ (i + 1 = j + 1 ∧ j + 1 < t.length + 1) := by omega
        exact if_congr hiff rfl rfl

lemma map_fitness_set (l : List Solution) (i : ℕ) (x : Solution)
    (h : x.fitness = (l.getD i default).fitness) :
    (l.set i x).map (fun s => s.fitness) = l.map (fun s => s.fitness) := by
  induction l generalizing i with
  | nil => simp
  | cons a t ih =>
    cases i with
    | zero =>
      simp only [List.getD_cons_zero] at h
      simp [List.set, h]
    | succ i =>
      simp only [List.getD_cons_succ] at h
      simp only [List.set, List.map_cons]
      rw [ih _ h]

lemma set_swap_map_fitness (pop : List Solution) (i j : ℕ) (x y : Solution)
    (hx : x.fitness = (pop.getD i default).fitness)
    (hy : y.fitness = (pop.getD j default).fitness) :
    ((pop.set i x).set j y).map (fun s => s.fitness) = pop.map (fun s => s.fitness) := by
  have h2 : y.fitness = ((pop.set i x).getD j default).fitness := by
    rw [getD_set_solution]
    by_cases hc : i = j ∧ j < pop.length
    · rw [if_pos hc]
      obtain ⟨hij, hlt⟩ := hc
      subst hij
      rw [hy, hx]
    · rw [if_neg hc]
      exact hy
  rw [map_fitness_set _ j y h2, map_fitness_set _ i x hx]

lemma crossPair_map_fitness (pop : List Solution) (i : ℕ) (r : Rng) :
    (HENMPC.crossPair pop i r).1.map (fun s => s.fitness) = pop.map (fun s => s.fitness) := by
  unfold HENMPC.crossPair
  dsimp only
  split
  · split
    · exact set_swap_map_fitness _ _ _ _ _ rfl rfl
    · split
      · exact set_swap_map_fitness _ _ _ _ _ rfl rfl
      · split
        · exact set_swap_map_fitness _ _ _ _ _ rfl rfl
        · rfl
  · rfl

lemma crossover_fold_map_fitness (idxs : List ℕ) (pr : List Solution × Rng) :
    (idxs.foldl (fun q i => HENMPC.crossPair q.1 i q.2) pr).1.map (fun s => s.fitness)
      = pr.1.map (fun s => s.fitness) := by
  induction idxs generalizing pr with
  | nil => rfl
  | cons i t ih =>
    rw [List.foldl_cons, ih]
    exact crossPair_map_fitness pr.1 i pr.2

lemma crossover_map_fitness (pop : List Solution) (r : Rng) :
    (HENMPC.crossover pop r).1.map (fun s => s.fitness) = pop.map (fun s => s.fitness) :=
  crossover_fold_map_fitness _ _

lemma mutateCurrent_fitness (s : Solution) (r : Rng) :
    (HENMPC.mutateCurrent s r).1.fitness = s.fitness := by
  unfold HENMPC.mutateCurrent
  dsimp only
  split <;> rfl

lemma mutateRatio_fitness (s : Solution) (r : Rng) :
    (HENMPC.mutateRatio s r).1.fitness = s.fitness := by
  unfold HENMPC.mutateRatio
  dsimp only
  split <;> rfl

lemma mutateAggressiveness_fitness (s : Solution) (r : Rng) :
    (HENMPC.mutateAggressiveness s r).1.fitness = s.fitness := by
  unfold HENMPC.mutateAggressiveness
  dsimp only
  split <;> rfl

lemma mutateOne_fitness (s : Solution) (r : Rng) :
    (HENMPC.mutateOne s r).1.fitness = s.fitness := by
  unfold HENMPC.mutateOne
  dsimp only
  rw [mutateAggressiveness_fitness, mutateRatio_fitness, mutateCurrent_fitness]

lemma mutation_map_fitness : ∀ (l : List Solution) (r : Rng),
    (HENMPC.mutation l r).1.map (fun s => s.fitness) = l.map (fun s => s.fitness)
  | [], _ => rfl
  | s :: t, r => by
    show ((HENMPC.mutateOne s r).1 :: (HENMPC.mutation t (HENMPC.mutateOne s r).2).1).map
      (fun s => s.fitness) = _
    simp only [List.map_cons]
    rw [mutation_map_fitness t _, mutateOne_fitness]

lemma variationPhase_map_fitness (pop : List Solution) (r : Rng) :
    (HENMPC.variationPhase pop r).1.map (fun s => s.fitness) = pop.map (fun s => s.fitness) := by
  unfold HENMPC.variationPhase
  dsimp only
  rw [mutation_map_fitness, crossover_map_fitness]

lemma headD_fitness_eq_of_map_eq (l1 l2 : List Solution)
    (h : l1.map (fun s => s.fitness) = l2.map (fun s => s.fitness)) :
    (l1.headD default).fitness = (l2.headD default).fitness := by
  cases l1 with
  | nil =>
    cases l2 with
    | nil => rfl
    | cons b u => simp at h
  | cons a t =>
    cases l2 with
    | nil => simp at h
    | cons b u =>
      simp only [List.map_cons, List.cons.injEq] at h
      simpa using h.1

lemma nextPopulation_head_fitness (scen : Scenario) (strat : StrategyName)
    (b : Solution) (st : HState) (r : Rng) :
    ((HENMPC.nextPopulation scen strat b st r).1.headD default).fitness = b.fitness := by
  unfold HENMPC.nextPopulation
  dsimp only
  rw [headD_fitness_eq_of_map_eq _ _ (variationPhase_map_fitness _ _)]
  rfl

/-- Claim C1: for every scenario, strategy, optimizer state holding a current
best solution, and random stream, one optimize step succeeds and the new best
solution has fitness at least that of the previous best: elitism copies the
previous best (with its recorded fitness) into slot 0 unconditionally,
crossover and mutation never touch the fitness field, and updateBestSolution
starts from slot 0 and only moves to strictly fitter solutions.  In
particular, for a fixed scenario and fixed stream the best fitness is
monotonically non-decreasing across generations. -/
theorem henmpc_elitism_best_fitness_monotone (scen : Scenario) (strat : StrategyName)
    (st : HState) (r : Rng) (b : Solution) (h : st.bestSolution = some b) :
    ∃ p b2, HENMPC.optimize scen strat st r = some p ∧
      p.1.bestSolution = some b2 ∧ b.fitness ≤ b2.fitness := by
  have hopt : HENMPC.optimize scen strat st r
      = some (HENMPC.optimizeCore scen strat b st r) := by
    unfold HENMPC.optimize
    rw [h]
  refine ⟨HENMPC.optimizeCore scen strat b st r,
    HENMPC.updateBestSolution (HENMPC.nextPopulation scen strat b st r).1, hopt, rfl, ?_⟩
  rw [← nextPopulation_head_fitness scen strat b st r]
  exact updateBestSolution_headD_le _

/-- Witness for claim C1: one step from a concrete state with a current best
solution. -/
theorem henmpc_elitism_best_fitness_monotone_witness :
    stSmall.bestSolution = some default ∧
    (∃ p b2, HENMPC.optimize scen0 StrategyName.economic stSmall rngHalf = some p ∧
      p.1.bestSolution = some b2 ∧ (default : Solution).fitness ≤ b2.fitness) :=
  ⟨rfl, henmpc_elitism_best_fitness_monotone scen0 StrategyName.economic stSmall rngHalf
    default rfl⟩

lemma solutionInv_default : SolutionInv default :=
  ⟨show (0 : ℚ) ≤ 1/2 by norm_num, show (1/2 : ℚ) ≤ 1 by norm_num,
    show (1/2 : ℚ) = 1 - 1/2 by norm_num, show (50 : ℚ) ≤ 100 by norm_num,
    show (100 : ℚ) ≤ 150 by norm_num⟩

lemma getD_mem_inv {P : Solution → Prop} (l : List Solution) (i : ℕ)
    (hl : ∀ s ∈ l, P s) (hd : P default) : P (l.getD i default) := by
  induction l generalizing i with
  | nil => simpa using hd
  | cons a t ih =>
    cases i with
    | zero =>
      simp only [List.getD_cons_zero]
      exact hl a (List.mem_cons_self a t)
    | succ i =>
      simp only [List.getD_cons_succ]
      exact ih i (fun s hs => hl s (List.mem_cons_of_mem a hs))

lemma mem_set_inv {P : Solution → Prop} (l : List Solution) (i : ℕ) (x : Solution)
    (hl : ∀ s ∈ l, P s) (hx : P x) : ∀ s ∈ l.set i x, P s := by
  intro s hs
  rcases List.mem_or_eq_of_mem_set hs with hmem | heq
  · exact hl s hmem
  · rw [heq]; exact hx

lemma crossPair_inv (pop : List Solution) (i : ℕ) (r : Rng)
    (hpop : ∀ s ∈ pop, SolutionInv s) :
    ∀ s ∈ (HENMPC.crossPair pop i r).1, SolutionInv s := by
  unfold HENMPC.crossPair
  dsimp only
  obtain ⟨ha1, ha2, ha3, ha4, ha5⟩ := getD_mem_inv pop i hpop solutionInv_default
  generalize (if i + 1 < pop.length then i + 1 else 0) = J
  obtain ⟨hb1, hb2, hb3, hb4, hb5⟩ := getD_mem_inv pop J hpop solutionInv_default
  split
  · split
    · exact mem_set_inv _ _ _ (mem_set_inv _ _ _ hpop ⟨ha1, ha2, ha3, hb4, hb5⟩)
        ⟨hb1, hb2, hb3, ha4, ha5⟩
    · split
      · exact mem_set_inv _ _ _ (mem_set_inv _ _ _ hpop ⟨hb1, hb2, rfl, ha4, ha5⟩)
          ⟨ha1, ha2, rfl, hb4, hb5⟩
      · split
        · exact mem_set_inv _ _ _ (mem_set_inv _ _ _ hpop ⟨ha1, ha2, ha3, ha4, ha5⟩)
            ⟨hb1, hb2, hb3, hb4, hb5⟩
        · exact hpop
  · exact hpop

lemma crossover_fold_inv (idxs : List ℕ) (pr : List Solution × Rng)
    (h : ∀ s ∈ pr.1, SolutionInv s) :
    ∀ s ∈ (idxs.foldl (fun q i => HENMPC.crossPair q.1 i q.2) pr).1, SolutionInv s := by
  induction idxs generalizing pr with
  | nil => exact h
  | cons i t ih =>
    rw [List.foldl_cons]
    exact ih _ (crossPair_inv pr.1 i pr.2 h)

lemma crossover_inv (pop : List Solution) (r : Rng) (h : ∀ s ∈ pop, SolutionInv s) :
    ∀ s ∈ (HENMPC.crossover pop r).1, SolutionInv s :=
  crossover_fold_inv _ _ h

lemma mutateCurrent_inv (s : Solution) (r : Rng) (h : SolutionInv s) :
    SolutionInv (HENMPC.mutateCurrent s r).1 := by
  unfold HENMPC.mutateCurrent
  dsimp only
  split
  · exact ⟨h.1, h.2.1, h.2.2.1, clamp2_lower 50 150 _, clamp2_upper 50 150 _ (by norm_num)⟩
  · exact h

lemma mutateRatio_inv (s : Solution) (r : Rng) (h : SolutionInv s) :
    SolutionInv (HENMPC.mutateRatio s r).1 := by
  unfold HENMPC.mutateRatio
  dsimp only
  split
  · exact ⟨clamp2_lower 0 1 _, clamp2_upper 0 1 _ (by norm_num), rfl,
      h.2.2.2.1, h.2.2.2.2⟩
  · exact h

lemma mutateAggressiveness_inv (s : Solution) (r : Rng) (h : SolutionInv s) :
    SolutionInv (HENMPC.mutateAggressiveness s r).1 := by
  unfold HENMPC.mutateAggressiveness
  dsimp only
  split
  · exact ⟨h.1, h.2.1, h.2.2.1, h.2.2.2.1, h.2.2.2.2⟩
  · exact h

lemma mutateOne_inv (s : Solution) (r : Rng) (h : SolutionInv s) :
    SolutionInv (HENMPC.mutateOne s r).1 := by
  unfold HENMPC.mutateOne
  dsimp only
  exact mutateAggressiveness_inv _ _ (mutateRatio_inv _ _ (mutateCurrent_inv _ _ h))

lemma mutation_inv : ∀ (l : List Solution) (r : Rng), (∀ s ∈ l, SolutionInv s) →
    ∀ s ∈ (HENMPC.mutation l r).1, SolutionInv s
  | [], _, _ => fun s hs => absurd hs (List.not_mem_nil s)
  | x :: t, r, h => by
    intro s hs
    have hs2 : s ∈ (HENMPC.mutateOne x r).1 ::
        (HENMPC.mutation t (HENMPC.mutateOne x r).2).1 := hs
    rcases List.mem_cons.mp hs2 with h1 | h1
    · rw [h1]; exact mutateOne_inv x r (h x (List.mem_cons_self x t))
    · exact mutation_inv t _ (fun u hu => h u (List.mem_cons_of_mem x hu)) s h1

/-- Claim C2 as amended: the invariants are preserved by the variation phase,
though not established by it.  If every solution of a population has
gridRatio in [0,1], pvRatio = 1 - gridRatio and currentSetpoint in [50,150],
then after the crossover and mutation steps every solution still does: swaps
exchange in-range values, the ratio swap and the ratio mutation re-establish
pvRatio = 1 - gridRatio, and both mutations re-clamp to the valid ranges. -/
theorem henmpc_variation_preserves_invariants (pop : List Solution) (r : Rng)
    (h : ∀ s ∈ pop, SolutionInv s) :
    ∀ s ∈ (HENMPC.variationPhase pop r).1, SolutionInv s := by
  unfold HENMPC.variationPhase
  dsimp only
  exact mutation_inv _ _ (crossover_inv pop r h)

section ConcreteEvaluationC

attribute [local semireducible] Rat.mul Rat.add Rat.sub Rat.inv Rat.ofScientific

/-- Witness for the amended claim C2 at a concrete one-element population. -/
theorem henmpc_variation_preserves_invariants_witness :
    (∀ s ∈ [(default : Solution)], SolutionInv s) ∧
    (∀ s ∈ (HENMPC.variationPhase [(default : Solution)] rngHalf).1, SolutionInv s) :=
  ⟨by decide, henmpc_variation_preserves_invariants [(default : Solution)] rngHalf (by decide)⟩

set_option maxRecDepth 10000 in
/-- Counterexample to claim C2 as stated: the initializer draws pvRatio
independently of gridRatio, and a full generation step (fitness evaluation,
selection, crossover, mutation) can hand such a solution through to the
post-variation population untouched.  From the code-built initial population
under rngInit, one optimize step under rngGen leaves a solution at slot 1
with pvRatio 1/10 but gridRatio 3/10, so pvRatio is not 1 - gridRatio
immediately after the mutation and crossover steps. -/
theorem henmpc_ratio_invariant_not_established :
    ((HENMPC.optimizeCore scen0 StrategyName.economic default stInit rngGen).1.population.getD 1
        default).pvRatio ≠
      1 - ((HENMPC.optimizeCore scen0 StrategyName.economic default stInit
        rngGen).1.population.getD 1 default).gridRatio := by
  decide

end ConcreteEvaluationC
